import Mathlib

/-!
Shallow embedding of the RabbitMQ resource & messaging abstraction layer of
dekusms/Deku-Enterprise (src/rmq.py, src/utils.py, src/config.py,
src/security/password.py, src/security/password_validation_tests.py).

Modelling conventions:
* The process environment is a parameter `env : String → Option String`
  (Python's `os.environ.get`).
* The HTTP transport (the `requests` library) is a parameter
  `net : Request → NetResult`: either the server answered with a numeric
  status and an optional body, or the request raised a transport exception
  (connection refused, timeout, ...) carrying a message.  `requests`'
  `raise_for_status` raises exactly for statuses in 400..599; both that
  exception and transport exceptions are `RequestException`s and are caught
  by the module's `except` clause.
* Response bodies are opaque: `Option String` where `none` models an empty
  `response.content` (so `response.json()` is skipped) and `some s` models
  the parsed JSON value of a non-empty body.
* Each administrative operation returns its structured outcome together
  with the list of HTTP requests it issued, so that "performs no network
  call" is a statement about the trace.
* The AMQP side (`pika`) is modelled by oracles: connection establishment
  is an `Except String Unit` (error = the exception `pika` raised) and
  `basic_publish` is a function returning `Except String Unit`.
-/

namespace Deku

/-- src/utils.py `get_env_var` (non-strict path):
`os.environ.get(env_var) or default` — an unset *or empty* variable falls
back to the default (Python truthiness of the empty string). -/
def get_env_var (env : String → Option String) (env_var deflt : String) : String :=
  match env env_var with
  | some v => if v = "" then deflt else v
  | none => deflt

/-- src/rmq.py `HTTP_API_HOST`. -/
def HTTP_API_HOST (env : String → Option String) : String :=
  get_env_var env "RABBITMQ_HTTP_API_HOST" "localhost"

/-- src/rmq.py `HTTP_API_PORT` (kept as its decimal text, which is how it
re-enters the base URL's f-string). -/
def HTTP_API_PORT (env : String → Option String) : String :=
  get_env_var env "RABBITMQ_HTTP_API_PORT" "15672"

/-- ASCII lowercase of a character (Python `str.lower` over the ASCII
range, which is all the configuration flags use). -/
def lowerChar (c : Char) : Char :=
  if 'A' ≤ c ∧ c ≤ 'Z' then Char.ofNat (c.toNat + 32) else c

/-- ASCII lowercase of a string. -/
def lowerStr (s : String) : String := String.mk (s.toList.map lowerChar)

/-- src/rmq.py `HTTP_API_PROTOCOL`. -/
def HTTP_API_PROTOCOL (env : String → Option String) : String :=
  if lowerStr (get_env_var env "RABBITMQ_HTTP_API_USE_TLS" "false") = "true"
  then "https" else "http"

/-- src/rmq.py `HTTP_API_BASE_URL`. -/
def HTTP_API_BASE_URL (env : String → Option String) : String :=
  HTTP_API_PROTOCOL env ++ "://" ++ HTTP_API_HOST env ++ ":" ++ HTTP_API_PORT env ++ "/api"

/-- src/rmq.py `AMQP_DEFAULT_VHOST`. -/
def AMQP_DEFAULT_VHOST (env : String → Option String) : String :=
  get_env_var env "RABBITMQ_AMQP_DEFAULT_VHOST" "%2F"

/-- src/rmq.py `SUPERADMIN_USER`. -/
def SUPERADMIN_USER (env : String → Option String) : String :=
  get_env_var env "RABBITMQ_SUPERADMIN_USERNAME" "guest"

/-- src/rmq.py `SUPERADMIN_PASS`. -/
def SUPERADMIN_PASS (env : String → Option String) : String :=
  get_env_var env "RABBITMQ_SUPERADMIN_PASSWORD" "guest"

/-- src/rmq.py `RabbitMQ._auth` / `get_auth`: the shared class-level
credential pair. -/
def get_auth (env : String → Option String) : String × String :=
  (SUPERADMIN_USER env, SUPERADMIN_PASS env)

/-- HTTP verb used by a management call (`requests.put/get/delete`). -/
inductive Method
  | put
  | get
  | delete
deriving DecidableEq, Repr

/-- JSON scalar appearing in the request bodies this module sends. -/
inductive JPrim
  | s (v : String)
  | b (v : Bool)
deriving DecidableEq, Repr

/-- A flat JSON object, as passed to `requests`' `json=` keyword. -/
abbrev JObj := List (String × JPrim)

/-- One HTTP request as this module issues it: verb, full URL, optional
JSON body, basic-auth pair, timeout. -/
structure Request where
  method : Method
  url : String
  body : Option JObj
  auth : String × String
  timeout : Nat
deriving DecidableEq, Repr

/-- What the transport did with a request: the server responded with a
status and (possibly empty) content, or the request raised a
`RequestException` (connection refused, timeout, ...) whose text is `err`. -/
inductive NetResult
  | response (status : Nat) (content : Option String)
  | failure (err : String)
deriving DecidableEq, Repr

/-- The `(Optional[Tuple[int, dict]], Optional[str])` pair every
administrative operation returns. -/
abbrev Outcome := Option (Nat × Option String) × Option String

/-- Text of the `HTTPError` that `response.raise_for_status()` raises for a
status in 400..599 (deterministic model of its message). -/
def raise_for_status_message (status : Nat) (url : String) : String :=
  toString status ++ " Error for url: " ++ url

/-- The shared try/except body of every create/read/delete method in
src/rmq.py: issue the request; `raise_for_status`; on success return
`(status, parsed-body-or-none), None`; on any `RequestException` return
`None, str(e)`.  The issued request is recorded in the trace. -/
def request_call (net : Request → NetResult) (req : Request) : Outcome × List Request :=
  (match net req with
   | .failure e => (none, some e)
   | .response status content =>
      if 400 ≤ status ∧ status < 600 then
        (none, some (raise_for_status_message status req.url))
      else
        (some (status, content), none),
   [req])

/-- src/rmq.py `VHost`: holds the vhost given at construction. -/
structure VHost where
  vhost : String
deriving DecidableEq, Repr

/-- src/rmq.py `VHost.create`: PUT `/vhosts/{name}`. -/
def VHost.create (env : String → Option String) (net : Request → NetResult)
    (_self : VHost) (name : String) (timeout : Nat) : Outcome × List Request :=
  request_call net
    { method := .put, url := HTTP_API_BASE_URL env ++ "/vhosts/" ++ name,
      body := none, auth := get_auth env, timeout := timeout }

/-- src/rmq.py `VHost.read`: GET `/vhosts/{name}`. -/
def VHost.read (env : String → Option String) (net : Request → NetResult)
    (_self : VHost) (name : String) (timeout : Nat) : Outcome × List Request :=
  request_call net
    { method := .get, url := HTTP_API_BASE_URL env ++ "/vhosts/" ++ name,
      body := none, auth := get_auth env, timeout := timeout }

/-- src/rmq.py `VHost.update`: unconditionally unsupported; no request. -/
def VHost.update (_self : VHost) (_name _new_name : String) : Outcome × List Request :=
  ((none, some "Updating vhost name is not supported in RabbitMQ."), [])

/-- src/rmq.py `VHost.delete`: DELETE `/vhosts/{name}`. -/
def VHost.delete (env : String → Option String) (net : Request → NetResult)
    (_self : VHost) (name : String) (timeout : Nat) : Outcome × List Request :=
  request_call net
    { method := .delete, url := HTTP_API_BASE_URL env ++ "/vhosts/" ++ name,
      body := none, auth := get_auth env, timeout := timeout }

/-- src/rmq.py `Exchange`: holds the vhost given at construction. -/
structure Exchange where
  vhost : String
deriving DecidableEq, Repr

/-- src/rmq.py `Exchange.create`: PUT `/exchanges/{vhost}/{name}` with body
`{"type": type, "durable": durable}`. -/
def Exchange.create (env : String → Option String) (net : Request → NetResult)
    (_self : Exchange) (name type vhost : String) (durable : Bool) (timeout : Nat) :
    Outcome × List Request :=
  request_call net
    { method := .put,
      url := HTTP_API_BASE_URL env ++ "/exchanges/" ++ vhost ++ "/" ++ name,
      body := some [("type", .s type), ("durable", .b durable)],
      auth := get_auth env, timeout := timeout }

/-- src/rmq.py `Exchange.read`: GET `/exchanges/{vhost}/{name}`. -/
def Exchange.read (env : String → Option String) (net : Request → NetResult)
    (_self : Exchange) (name vhost : String) (timeout : Nat) : Outcome × List Request :=
  request_call net
    { method := .get,
      url := HTTP_API_BASE_URL env ++ "/exchanges/" ++ vhost ++ "/" ++ name,
      body := none, auth := get_auth env, timeout := timeout }

/-- src/rmq.py `Exchange.update`: unconditionally unsupported; no request. -/
def Exchange.update (_self : Exchange) (_name _new_name : String)
    (_new_type : Option String) : Outcome × List Request :=
  ((none, some "Updating exchange name or type is not supported in RabbitMQ."), [])

/-- src/rmq.py `Exchange.delete`: DELETE `/exchanges/{vhost}/{name}`. -/
def Exchange.delete (env : String → Option String) (net : Request → NetResult)
    (_self : Exchange) (name vhost : String) (timeout : Nat) : Outcome × List Request :=
  request_call net
    { method := .delete,
      url := HTTP_API_BASE_URL env ++ "/exchanges/" ++ vhost ++ "/" ++ name,
      body := none, auth := get_auth env, timeout := timeout }

/-- src/rmq.py `Queue`: holds the vhost given at construction. -/
structure Queue where
  vhost : String
deriving DecidableEq, Repr

/-- src/rmq.py `Queue.create`: PUT `/queues/{vhost}/{name}` with body
`{"durable": durable}`. -/
def Queue.create (env : String → Option String) (net : Request → NetResult)
    (_self : Queue) (name vhost : String) (durable : Bool) (timeout : Nat) :
    Outcome × List Request :=
  request_call net
    { method := .put,
      url := HTTP_API_BASE_URL env ++ "/queues/" ++ vhost ++ "/" ++ name,
      body := some [("durable", .b durable)],
      auth := get_auth env, timeout := timeout }

/-- src/rmq.py `Queue.read`: GET `/queues/{vhost}/{name}`. -/
def Queue.read (env : String → Option String) (net : Request → NetResult)
    (_self : Queue) (name vhost : String) (timeout : Nat) : Outcome × List Request :=
  request_call net
    { method := .get,
      url := HTTP_API_BASE_URL env ++ "/queues/" ++ vhost ++ "/" ++ name,
      body := none, auth := get_auth env, timeout := timeout }

/-- src/rmq.py `Queue.update`: unconditionally unsupported; no request. -/
def Queue.update (_self : Queue) (_name _new_name : String) : Outcome × List Request :=
  ((none, some "Updating queue name is not supported in RabbitMQ."), [])

/-- src/rmq.py `Queue.delete`: DELETE `/queues/{vhost}/{name}`. -/
def Queue.delete (env : String → Option String) (net : Request → NetResult)
    (_self : Queue) (name vhost : String) (timeout : Nat) : Outcome × List Request :=
  request_call net
    { method := .delete,
      url := HTTP_API_BASE_URL env ++ "/queues/" ++ vhost ++ "/" ++ name,
      body := none, auth := get_auth env, timeout := timeout }

/-- The `timeout: int = 10` default shared by every create/read/delete
signature in src/rmq.py. -/
def default_timeout : Nat := 10

/-! ## Producer (AMQP publisher), src/rmq.py lines 407-475 -/

/-- A `pika` blocking connection, reduced to the one piece of state the
module reads: `is_open`. -/
structure Connection where
  is_open : Bool
deriving DecidableEq, Repr

/-- Observable AMQP side effects of the Producer methods. -/
inductive AmqpAction
  | basicPublish (exchange routing_key body : String)
  | closeConn
deriving DecidableEq, Repr

/-- src/rmq.py `Producer`: the object that exists after a successful
`__init__`.  The derived channel holds no state this module reads;
channel faults surface through the publish oracle. -/
structure Producer where
  vhost : String
  connection : Connection
deriving DecidableEq, Repr

/-- src/rmq.py `Producer.__init__`: `pika.BlockingConnection(...)` either
returns an open connection or raises; the constructor has no try/except,
so a raise (`connect = .error e`) propagates unchanged and no `Producer`
value is produced. -/
def Producer.init (connect : Except String Unit) (vhost : String) :
    Except String Producer :=
  match connect with
  | .error e => .error e
  | .ok _ => .ok { vhost := vhost, connection := { is_open := true } }

/-- The `{"status": ..., "message": ...}` dict `Producer.publish` returns. -/
structure PublishResult where
  status : String
  message : String
deriving DecidableEq, Repr

/-- src/rmq.py `Producer.publish`: attempt `basic_publish`; on success
return the success dict, on any exception return the error dict with
`str(e)`.  The producer state is returned unchanged and the trace records
the one publish attempt. -/
def Producer.publish (basic_publish : String → String → String → Except String Unit)
    (p : Producer) (exchange_name routing_key message : String) :
    PublishResult × Producer × List AmqpAction :=
  match basic_publish exchange_name routing_key message with
  | .ok _ =>
      ({ status := "success", message := "Message published" }, p,
       [.basicPublish exchange_name routing_key message])
  | .error e =>
      ({ status := "error", message := e }, p,
       [.basicPublish exchange_name routing_key message])

/-- src/rmq.py `Producer.close`: unconditionally `self.connection.close()`
(which leaves the pika connection with `is_open = False`). -/
def Producer.close (p : Producer) : Producer × List AmqpAction :=
  ({ p with connection := { is_open := false } }, [.closeConn])

/-- src/rmq.py `Producer.__del__`: `if self.connection.is_open: self.close()`. -/
def Producer.del (p : Producer) : Producer × List AmqpAction :=
  if p.connection.is_open then p.close else (p, [])

/-! ## Password policy validation
(src/security/password.py, src/security/password_validation_tests.py,
src/config.py)

A policy is a Python dict: an insertion-ordered association list with
distinct keys and heterogeneous values.  The pwned-passwords breach
database is an oracle `pwned_db : String → Option Nat`: `some k` means
`pwnedpasswords.check` returned the count `k`, `none` means it raised
(network failure), which `test_pwned` converts into a failure message. -/

/-- A value stored in a policy dict. -/
inductive PolicyVal
  | nat (n : Nat)
  | str (v : String)
  | rat (q : ℚ)
  | bool (b : Bool)
deriving DecidableEq, Repr

/-- A policy dict: keys in declaration (insertion) order. -/
abbrev Policy := List (String × PolicyVal)

/-- Numeric read of a policy value (`policy["min_length"]` used as an int;
well-typed policies only ever hit the `.nat` case). -/
def PolicyVal.asNat : PolicyVal → Nat
  | .nat n => n
  | _ => 0

/-- String read of a policy value. -/
def PolicyVal.asStr : PolicyVal → String
  | .str v => v
  | _ => ""

/-- Rational read of a policy value (`min_entropy`, a Python float,
modelled as an exact rational). -/
def PolicyVal.asRat : PolicyVal → ℚ
  | .rat q => q
  | .nat n => n
  | _ => 0

/-- Python truthiness of a policy value (`if ... and policy["check_pwned"]`). -/
def PolicyVal.truthy : PolicyVal → Bool
  | .bool b => b
  | .nat n => n ≠ 0
  | .str v => v ≠ ""
  | .rat q => q ≠ 0

/-- src/config.py `DEFAULT_PASSWORD_POLICY`, keys in source order. -/
def DEFAULT_PASSWORD_POLICY : Policy :=
  [("min_length", .nat 8),
   ("min_uppercase", .nat 1),
   ("min_numbers", .nat 1),
   ("min_special", .nat 1),
   ("allowed_specials", .str "!@#$%^*-_=+.,"),
   ("min_entropy", .rat (mkRat 1 2)),
   ("check_pwned", .bool true)]

/-- src/security/password_validation_tests.py `test_length`. -/
def test_length (password : String) (min_length : Nat) : Bool × String :=
  if password.length < min_length then
    (true, "The password must be at least " ++ toString min_length ++ " characters long.")
  else (false, "")

/-- src/security/password_validation_tests.py `test_uppercase`
(`c.isupper()` modelled over ASCII letters). -/
def test_uppercase (password : String) (min_uppercase : Nat) : Bool × String :=
  if (password.toList.countP (fun c => c.isUpper)) < min_uppercase then
    (true, "Password must include at least " ++ toString min_uppercase ++
      " uppercase letter(s).")
  else (false, "")

/-- src/security/password_validation_tests.py `test_numbers`
(`c.isdigit()` modelled over ASCII digits). -/
def test_numbers (password : String) (min_numbers : Nat) : Bool × String :=
  if (password.toList.countP (fun c => c.isDigit)) < min_numbers then
    (true, "Password must include at least " ++ toString min_numbers ++ " number(s).")
  else (false, "")

/-- src/security/password_validation_tests.py `test_special_characters`. -/
def test_special_characters (password : String) (min_special : Nat)
    (allowed_specials : String) : Bool × String :=
  if (password.toList.countP (fun c => allowed_specials.toList.contains c)) < min_special then
    (true, "Password must include at least " ++ toString min_special ++
      " special character(s) from the set: " ++ allowed_specials)
  else (false, "")

/-- src/security/password_validation_tests.py `test_pwned`: the breach
database returned a count, or raised (`none`), which the enclosing
try/except converts into an \"unable to verify\" failure. -/
def test_pwned (pwned_db : String → Option Nat) (password : String) : Bool × String :=
  match pwned_db password with
  | none =>
      (true, "Unable to verify if the password has been pwned. Please try again later.")
  | some pwned_count =>
      if 0 < pwned_count then
        (true, "The password you entered has appeared in " ++ toString pwned_count ++
          " data breaches. Please choose a more secure password to protect your account.")
      else (false, "")

/-- Decides `H(password) < a / b` where `H` is the Shannon entropy over
character frequencies that `test_entropy` computes
(`-sum (c/n) * log2 (c/n)`), by exact integer arithmetic:
`H < a/b  ↔  n^(n*b) < 2^(a*n) * prod_i c_i^(c_i*b)`
(both sides are exact powers, and `log2` is strictly monotone).  This is
the exact-real semantics of the source's floating-point comparison. -/
def entropy_lt (password : String) (a b : Nat) : Bool :=
  let l := password.toList
  let n := l.length
  let counts := l.dedup.map (fun c => l.count c)
  n ^ (n * b) < 2 ^ (a * n) * (counts.map (fun c => c ^ (c * b))).prod

/-- src/security/password_validation_tests.py `test_entropy`: empty
passwords fail outright; otherwise compare the character-frequency entropy
with the bound (the source's message interpolates the computed float; the
model keeps the fixed text). -/
def test_entropy (password : String) (min_entropy : ℚ) : Bool × String :=
  if password = "" then (true, "Password cannot be empty.")
  else if entropy_lt password min_entropy.num.toNat min_entropy.den then
    (true, "The password is too weak.")
  else (false, "")

/-- src/security/password_validation_tests.py
`run_password_validation_tests`: membership checks on the policy dict in
the fixed source order (length, uppercase, numbers, special, pwned,
entropy); the thunk list is modelled as the list of the tests' results. -/
def run_password_validation_tests (pwned_db : String → Option Nat)
    (password : String) (policy : Policy) : List (Bool × String) :=
  (match policy.lookup "min_length" with
   | some v => [test_length password v.asNat]
   | none => []) ++
  (match policy.lookup "min_uppercase" with
   | some v => [test_uppercase password v.asNat]
   | none => []) ++
  (match policy.lookup "min_numbers" with
   | some v => [test_numbers password v.asNat]
   | none => []) ++
  (match policy.lookup "min_special", policy.lookup "allowed_specials" with
   | some v, some w => [test_special_characters password v.asNat w.asStr]
   | _, _ => []) ++
  (match policy.lookup "check_pwned" with
   | some v => if v.truthy then [test_pwned pwned_db password] else []
   | none => []) ++
  (match policy.lookup "min_entropy" with
   | some v => [test_entropy password v.asRat]
   | none => [])

/-- The `for test in tests: ... if err: return` loop of
src/security/password.py `validate_password`. -/
def first_failure : List (Bool × String) → Bool × String
  | [] => (false, "Password is valid.")
  | t :: rest => if t.1 then t else first_failure rest

/-- src/security/password.py `validate_password`: `policy = None` or a
falsy (empty) policy dict is replaced by `DEFAULT_PASSWORD_POLICY`; then
run the selected tests, short-circuiting on the first failure. -/
def validate_password (pwned_db : String → Option Nat) (password : String)
    (policy : Option Policy) : Bool × String :=
  let pol : Policy :=
    match policy with
    | none => DEFAULT_PASSWORD_POLICY
    | some p => if p.isEmpty then DEFAULT_PASSWORD_POLICY else p
  first_failure (run_password_validation_tests pwned_db password pol)

/-- Modelled from the spec: "a pass/fail plus a human-readable reason for
the first failing rule, evaluated in policy-declared order with
short-circuit on first failure" — the rules run in the order their keys
are declared in the policy dict (no such function exists in the source;
this is the spec's reading, for comparison with `validate_password`). -/
def rules_declared_order (pwned_db : String → Option Nat) (password : String)
    (policy : Policy) : List (Bool × String) :=
  policy.flatMap (fun kv =>
    match kv.1 with
    | "min_length" => [test_length password kv.2.asNat]
    | "min_uppercase" => [test_uppercase password kv.2.asNat]
    | "min_numbers" => [test_numbers password kv.2.asNat]
    | "min_special" =>
        match policy.lookup "allowed_specials" with
        | some w => [test_special_characters password kv.2.asNat w.asStr]
        | none => []
    | "check_pwned" => if kv.2.truthy then [test_pwned pwned_db password] else []
    | "min_entropy" => [test_entropy password kv.2.asRat]
    | _ => [])

/-- Modelled from the spec: the validator as the spec words it, evaluating
rules in policy-declared order with short-circuit on first failure. -/
def validate_password_declared_order (pwned_db : String → Option Nat)
    (password : String) (policy : Policy) : Bool × String :=
  first_failure (rules_declared_order pwned_db password policy)

/-- The structured-result shape of an administrative outcome: either an
`(status, body)` pair with no error and a status `raise_for_status` does
not reject, or no result and an error string. -/
def structured (o : Outcome) : Prop :=
  (∃ st body, o = (some (st, body), none) ∧ ¬(400 ≤ st ∧ st < 600)) ∨
  (∃ e, o = (none, some e))

/-! ## Theorems -/

/-- Every request processed by the shared try/except body yields a
structured outcome, whatever the transport does. -/
theorem request_call_structured (net : Request → NetResult) (req : Request) :
    structured (request_call net req).1 := by
  unfold structured request_call
  cases net req with
  | failure e => exact Or.inr ⟨e, rfl⟩
  | response st content =>
    by_cases hs : 400 ≤ st ∧ st < 600
    · exact Or.inr ⟨raise_for_status_message st req.url, by simp [hs]⟩
    · exact Or.inl ⟨st, content, by simp [hs], hs⟩

/-- C1 (counterexample to the claim as stated): with a transport that
answers status 304 — not a 2xx status — `VHost.create` returns an Outcome
`(304, no content)` paired with no error, whereas the claim requires every
non-2xx status to yield no Outcome and an error string. -/
theorem claim_C1_counterexample :
    (VHost.create (fun _ => none) (fun _ => .response 304 none) ⟨"%2F"⟩ "vh1" 10).1
      = (some (304, none), none)
  ∧ ¬ (200 ≤ 304 ∧ 304 < 300) :=
  ⟨rfl, by decide⟩

/-- C1 (amended): for every resource kind and every create/read/delete
operation, under any environment and any transport behaviour, the call
returns either an Outcome (numeric status with optional parsed body, `none`
body meaning "no content") paired with no error — exactly when the status
is outside 400..599, the range `raise_for_status` rejects — or no Outcome
paired with an error string; no fault escapes the call. -/
theorem claim_C1_amended (env : String → Option String) (net : Request → NetResult)
    (vh : VHost) (ex : Exchange) (qu : Queue)
    (name type vhost : String) (durable : Bool) (timeout : Nat) :
    structured (VHost.create env net vh name timeout).1
  ∧ structured (VHost.read env net vh name timeout).1
  ∧ structured (VHost.delete env net vh name timeout).1
  ∧ structured (Exchange.create env net ex name type vhost durable timeout).1
  ∧ structured (Exchange.read env net ex name vhost timeout).1
  ∧ structured (Exchange.delete env net ex name vhost timeout).1
  ∧ structured (Queue.create env net qu name vhost durable timeout).1
  ∧ structured (Queue.read env net qu name vhost timeout).1
  ∧ structured (Queue.delete env net qu name vhost timeout).1 :=
  ⟨request_call_structured net _, request_call_structured net _,
   request_call_structured net _, request_call_structured net _,
   request_call_structured net _, request_call_structured net _,
   request_call_structured net _, request_call_structured net _,
   request_call_structured net _⟩

/-- C2: for every resource kind and all arguments, `update` returns no
Outcome together with the unsupported-operation error string for that
kind, and its request trace is empty — no network call is performed. -/
theorem claim_C2 (vh : VHost) (ex : Exchange) (qu : Queue)
    (name new_name : String) (new_type : Option String) :
    VHost.update vh name new_name
      = ((none, some "Updating vhost name is not supported in RabbitMQ."), [])
  ∧ Exchange.update ex name new_name new_type
      = ((none, some "Updating exchange name or type is not supported in RabbitMQ."), [])
  ∧ Queue.update qu name new_name
      = ((none, some "Updating queue name is not supported in RabbitMQ."), []) :=
  ⟨rfl, rfl, rfl⟩

/-- C3: every create/read/delete call issues exactly one HTTP request with
the verb PUT (create), GET (read) or DELETE (delete), against
`/vhosts/{name}`, `/exchanges/{vhost}/{name}` (create body
`{type, durable}`) or `/queues/{vhost}/{name}` (create body `{durable}`),
authenticated with the shared credential pair, carrying the given timeout;
the signature default for the timeout is 10. -/
theorem claim_C3 (env : String → Option String) (net : Request → NetResult)
    (vh : VHost) (ex : Exchange) (qu : Queue)
    (name type vhost : String) (durable : Bool) (timeout : Nat) :
    (VHost.create env net vh name timeout).2
      = [{ method := .put, url := HTTP_API_BASE_URL env ++ "/vhosts/" ++ name,
           body := none, auth := get_auth env, timeout := timeout }]
  ∧ (VHost.read env net vh name timeout).2
      = [{ method := .get, url := HTTP_API_BASE_URL env ++ "/vhosts/" ++ name,
           body := none, auth := get_auth env, timeout := timeout }]
  ∧ (VHost.delete env net vh name timeout).2
      = [{ method := .delete, url := HTTP_API_BASE_URL env ++ "/vhosts/" ++ name,
           body := none, auth := get_auth env, timeout := timeout }]
  ∧ (Exchange.create env net ex name type vhost durable timeout).2
      = [{ method := .put,
           url := HTTP_API_BASE_URL env ++ "/exchanges/" ++ vhost ++ "/" ++ name,
           body := some [("type", .s type), ("durable", .b durable)],
           auth := get_auth env, timeout := timeout }]
  ∧ (Exchange.read env net ex name vhost timeout).2
      = [{ method := .get,
           url := HTTP_API_BASE_URL env ++ "/exchanges/" ++ vhost ++ "/" ++ name,
           body := none, auth := get_auth env, timeout := timeout }]
  ∧ (Exchange.delete env net ex name vhost timeout).2
      = [{ method := .delete,
           url := HTTP_API_BASE_URL env ++ "/exchanges/" ++ vhost ++ "/" ++ name,
           body := none, auth := get_auth env, timeout := timeout }]
  ∧ (Queue.create env net qu name vhost durable timeout).2
      = [{ method := .put,
           url := HTTP_API_BASE_URL env ++ "/queues/" ++ vhost ++ "/" ++ name,
           body := some [("durable", .b durable)],
           auth := get_auth env, timeout := timeout }]
  ∧ (Queue.read env net qu name vhost timeout).2
      = [{ method := .get,
           url := HTTP_API_BASE_URL env ++ "/queues/" ++ vhost ++ "/" ++ name,
           body := none, auth := get_auth env, timeout := timeout }]
  ∧ (Queue.delete env net qu name vhost timeout).2
      = [{ method := .delete,
           url := HTTP_API_BASE_URL env ++ "/queues/" ++ vhost ++ "/" ++ name,
           body := none, auth := get_auth env, timeout := timeout }]
  ∧ get_auth env = (SUPERADMIN_USER env, SUPERADMIN_PASS env)
  ∧ default_timeout = 10 :=
  ⟨rfl, rfl, rfl, rfl, rfl, rfl, rfl, rfl, rfl, rfl, rfl⟩

/-- C9: for the Exchange and Queue managers, create/read/delete depend
only on the per-call arguments — two managers constructed with different
vhost values produce identical results and identical request traces on
identical calls, because the stored vhost is never read. -/
theorem claim_C9 (env : String → Option String) (net : Request → NetResult)
    (ex1 ex2 : Exchange) (q1 q2 : Queue)
    (name type vhost : String) (durable : Bool) (timeout : Nat) :
    Exchange.create env net ex1 name type vhost durable timeout
      = Exchange.create env net ex2 name type vhost durable timeout
  ∧ Exchange.read env net ex1 name vhost timeout
      = Exchange.read env net ex2 name vhost timeout
  ∧ Exchange.delete env net ex1 name vhost timeout
      = Exchange.delete env net ex2 name vhost timeout
  ∧ Queue.create env net q1 name vhost durable timeout
      = Queue.create env net q2 name vhost durable timeout
  ∧ Queue.read env net q1 name vhost timeout
      = Queue.read env net q2 name vhost timeout
  ∧ Queue.delete env net q1 name vhost timeout
      = Queue.delete env net q2 name vhost timeout :=
  ⟨rfl, rfl, rfl, rfl, rfl, rfl⟩

/-- C4 (counterexample to the claim as stated): under the default
environment, an exchange create whose vhost segment is the literal default
vhost "/" transmits that literal "/" in the path — the URL is
`.../exchanges///orders` and contains no `%2F` at all; no transport-safe
encoding of the segment takes place. -/
theorem claim_C4_counterexample :
    ((Exchange.create (fun _ => none) (fun _ => .response 201 none) ⟨"%2F"⟩
        "orders" "direct" "/" true 10).2.map Request.url)
      = ["http://localhost:15672/api/exchanges///orders"]
  ∧ ¬ ("%2F".toList <:+: "http://localhost:15672/api/exchanges///orders".toList) :=
  ⟨by decide, by decide⟩

/-- C4 (amended): this layer performs no percent-encoding — the vhost and
name arguments are interpolated into the request path verbatim.  When the
environment does not override it, the configured default vhost constant is
the pre-encoded string `%2F`, so a call passing that constant transmits
`%2F` in the path (and a call passing a literal `/` transmits a literal
`/`, as the counterexample shows). -/
theorem claim_C4_amended (env : String → Option String) (net : Request → NetResult)
    (ex : Exchange) (qu : Queue) (name type vhost : String) (durable : Bool)
    (timeout : Nat) (h : env "RABBITMQ_AMQP_DEFAULT_VHOST" = none) :
    AMQP_DEFAULT_VHOST env = "%2F"
  ∧ ((Exchange.create env net ex name type vhost durable timeout).2.map Request.url)
      = [HTTP_API_BASE_URL env ++ "/exchanges/" ++ vhost ++ "/" ++ name]
  ∧ ((Queue.create env net qu name vhost durable timeout).2.map Request.url)
      = [HTTP_API_BASE_URL env ++ "/queues/" ++ vhost ++ "/" ++ name]
  ∧ ((Exchange.create env net ex name type (AMQP_DEFAULT_VHOST env) durable timeout).2.map
        Request.url)
      = [HTTP_API_BASE_URL env ++ "/exchanges/" ++ "%2F" ++ "/" ++ name]
  ∧ ((Queue.create env net qu name (AMQP_DEFAULT_VHOST env) durable timeout).2.map
        Request.url)
      = [HTTP_API_BASE_URL env ++ "/queues/" ++ "%2F" ++ "/" ++ name] := by
  have hd : AMQP_DEFAULT_VHOST env = "%2F" := by
    simp [AMQP_DEFAULT_VHOST, get_env_var, h]
  refine ⟨hd, rfl, rfl, ?_, ?_⟩
  · rw [hd]; rfl
  · rw [hd]; rfl

/-- C4 (witness for the amended theorem): the default environment leaves
the vhost variable unset, and the amended statement holds there for
concrete arguments. -/
theorem claim_C4_amended_witness :
    AMQP_DEFAULT_VHOST (fun _ => none) = "%2F"
  ∧ ((Exchange.create (fun _ => none) (fun _ => .response 201 none) ⟨"%2F"⟩
        "orders" "direct" "myvhost" true 10).2.map Request.url)
      = [HTTP_API_BASE_URL (fun _ => none) ++ "/exchanges/" ++ "myvhost" ++ "/" ++ "orders"]
  ∧ ((Queue.create (fun _ => none) (fun _ => .response 201 none) ⟨"%2F"⟩
        "orders" "myvhost" true 10).2.map Request.url)
      = [HTTP_API_BASE_URL (fun _ => none) ++ "/queues/" ++ "myvhost" ++ "/" ++ "orders"]
  ∧ ((Exchange.create (fun _ => none) (fun _ => .response 201 none) ⟨"%2F"⟩
        "orders" "direct" (AMQP_DEFAULT_VHOST (fun _ => none)) true 10).2.map Request.url)
      = [HTTP_API_BASE_URL (fun _ => none) ++ "/exchanges/" ++ "%2F" ++ "/" ++ "orders"]
  ∧ ((Queue.create (fun _ => none) (fun _ => .response 201 none) ⟨"%2F"⟩
        "orders" (AMQP_DEFAULT_VHOST (fun _ => none)) true 10).2.map Request.url)
      = [HTTP_API_BASE_URL (fun _ => none) ++ "/queues/" ++ "%2F" ++ "/" ++ "orders"] :=
  claim_C4_amended (fun _ => none) (fun _ => .response 201 none) ⟨"%2F"⟩ ⟨"%2F"⟩
    "orders" "direct" "myvhost" true 10 rfl

/-- C5: if connection establishment raises, `Producer.__init__` propagates
that fault unchanged (it is not converted into a structured outcome) and
no Producer value exists; conversely, any Producer the constructor does
return came from a successful connection and holds an open connection —
so no publish call can occur before a successful connection exists. -/
theorem claim_C5 (vhost : String) :
    (∀ e, Producer.init (.error e) vhost = .error e)
  ∧ (∀ connect p, Producer.init connect vhost = .ok p →
      connect = .ok () ∧ p.connection.is_open = true ∧ p.vhost = vhost) := by
  constructor
  · intro e; rfl
  · intro connect p h
    match connect with
    | .error e => simp [Producer.init] at h
    | .ok () =>
      simp only [Producer.init, Except.ok.injEq] at h
      subst h
      exact ⟨rfl, rfl, rfl⟩

/-- C5 (witness): applying the theorem to the successful construction of a
Producer for vhost "vh". -/
theorem claim_C5_witness :
    (Except.ok () : Except String Unit) = .ok ()
  ∧ (Producer.mk "vh" ⟨true⟩).connection.is_open = true
  ∧ (Producer.mk "vh" ⟨true⟩).vhost = "vh" :=
  (claim_C5 "vh").2 (.ok ()) (Producer.mk "vh" ⟨true⟩) rfl

/-- C6: `publish` returns the success dict when `basic_publish` succeeds
and, on any channel/connection fault, returns (never raises) the error
dict carrying the failure description; the producer state — in particular
its connection — is unchanged, and the AMQP trace holds exactly the one
publish attempt: no reconnect, no close. -/
theorem claim_C6 (basic_publish : String → String → String → Except String Unit)
    (p : Producer) (exchange_name routing_key message : String) :
    (basic_publish exchange_name routing_key message = .ok () →
      (Producer.publish basic_publish p exchange_name routing_key message).1
        = { status := "success", message := "Message published" })
  ∧ (∀ e, basic_publish exchange_name routing_key message = .error e →
      (Producer.publish basic_publish p exchange_name routing_key message).1
        = { status := "error", message := e })
  ∧ (Producer.publish basic_publish p exchange_name routing_key message).2.1 = p
  ∧ (Producer.publish basic_publish p exchange_name routing_key message).2.2
      = [.basicPublish exchange_name routing_key message] := by
  refine ⟨?_, ?_, ?_, ?_⟩
  · intro h; simp [Producer.publish, h]
  · intro e h; simp [Producer.publish, h]
  · cases h : basic_publish exchange_name routing_key message <;>
      simp [Producer.publish, h]
  · cases h : basic_publish exchange_name routing_key message <;>
      simp [Producer.publish, h]

/-- C6 (witness): a failing channel yields the error dict, a healthy one
the success dict, at concrete inputs. -/
theorem claim_C6_witness :
    (Producer.publish (fun _ _ _ => .error "channel closed") (Producer.mk "vh" ⟨true⟩)
        "ex" "rk" "msg").1 = { status := "error", message := "channel closed" }
  ∧ (Producer.publish (fun _ _ _ => .ok ()) (Producer.mk "vh" ⟨true⟩)
        "ex" "rk" "msg").1 = { status := "success", message := "Message published" } :=
  ⟨(claim_C6 (fun _ _ _ => .error "channel closed") (Producer.mk "vh" ⟨true⟩)
      "ex" "rk" "msg").2.1 "channel closed" rfl,
   (claim_C6 (fun _ _ _ => .ok ()) (Producer.mk "vh" ⟨true⟩)
      "ex" "rk" "msg").1 rfl⟩

/-- C7: `close()` transitions the connection to closed and emits one close
action; it is unguarded, so a second explicit `close()` emits a second
close action (idempotent only if checked first); the `__del__` safety net
closes exactly when the connection is still open — after an explicit
`close()` it performs no second close, and on an abandoned open Producer
it performs the close, releasing the socket. -/
theorem claim_C7 (p : Producer) :
    (p.close.1.connection.is_open = false)
  ∧ (p.close.2 = [.closeConn])
  ∧ (Producer.del p.close.1 = (p.close.1, []))
  ∧ (p.connection.is_open = true → Producer.del p = p.close)
  ∧ (p.close.1.close.2 = [.closeConn]) := by
  refine ⟨rfl, rfl, ?_, ?_, rfl⟩
  · simp [Producer.del, Producer.close]
  · intro h; simp [Producer.del, h]

/-- C7 (witness): an open Producer abandoned without `close()` is closed
by the safety net. -/
theorem claim_C7_witness :
    Producer.del (Producer.mk "vh" ⟨true⟩) = Producer.close (Producer.mk "vh" ⟨true⟩) :=
  (claim_C7 (Producer.mk "vh" ⟨true⟩)).2.2.2.1 rfl

/-- The short-circuiting loop of `validate_password` returns the first
failing test, or the pass result when all pass. -/
theorem first_failure_eq_find (l : List (Bool × String)) :
    first_failure l = (l.find? (fun t => t.1)).getD (false, "Password is valid.") := by
  induction l with
  | nil => rfl
  | cons t rest ih =>
    cases ht : t.1 with
    | true => simp [first_failure, List.find?, ht]
    | false => simp [first_failure, List.find?, ht, ih]

/-- The selected tests form a sublist of the six rules taken in the fixed
source order: length, uppercase, numbers, special, breach, entropy. -/
theorem run_sublist_rules (pwned_db : String → Option Nat) (password : String)
    (policy : Policy) :
    List.Sublist (run_password_validation_tests pwned_db password policy)
      ([test_length password ((policy.lookup "min_length").getD (.nat 0)).asNat] ++
      [test_uppercase password ((policy.lookup "min_uppercase").getD (.nat 0)).asNat] ++
      [test_numbers password ((policy.lookup "min_numbers").getD (.nat 0)).asNat] ++
      [test_special_characters password
        ((policy.lookup "min_special").getD (.nat 0)).asNat
        ((policy.lookup "allowed_specials").getD (.str "")).asStr] ++
      [test_pwned pwned_db password] ++
      [test_entropy password ((policy.lookup "min_entropy").getD (.rat 0)).asRat]) := by
  unfold run_password_validation_tests
  refine List.Sublist.append (List.Sublist.append (List.Sublist.append
    (List.Sublist.append (List.Sublist.append ?_ ?_) ?_) ?_) ?_) ?_
  · cases policy.lookup "min_length" <;> simp
  · cases policy.lookup "min_uppercase" <;> simp
  · cases policy.lookup "min_numbers" <;> simp
  · cases policy.lookup "min_special" <;> cases policy.lookup "allowed_specials" <;> simp
  · cases policy.lookup "check_pwned" with
    | none => simp
    | some v => cases hv : v.truthy <;> simp [hv]
  · cases policy.lookup "min_entropy" <;> simp

/-- C8 (counterexample to the claim as stated): the policy declaring the
digit rule before the length rule, on a password failing both, yields the
length message — the code evaluates the rules in its fixed order, not in
the policy-declared order the claim states (the spec-modelled
declared-order validator returns the digit message). -/
theorem claim_C8_counterexample :
    validate_password (fun _ => some 0) "a"
        (some [("min_numbers", PolicyVal.nat 1), ("min_length", PolicyVal.nat 8)])
      = (true, "The password must be at least 8 characters long.")
  ∧ validate_password_declared_order (fun _ => some 0) "a"
        [("min_numbers", PolicyVal.nat 1), ("min_length", PolicyVal.nat 8)]
      = (true, "Password must include at least 1 number(s).")
  ∧ ("The password must be at least 8 characters long." : String)
      ≠ "Password must include at least 1 number(s)." :=
  ⟨by decide, by decide, by decide⟩

/-- C8 (amended): for every password, breach database and non-empty
policy, the validator evaluates the rules present in the policy in the
fixed source order — minimum length, uppercase count, digit count, special
characters, breach check, entropy (not the policy-declared order) — with
short-circuit on first failure: it returns the first failing rule's fail
flag and reason, or the pass result when every selected rule passes. -/
theorem claim_C8_amended (pwned_db : String → Option Nat) (password : String)
    (policy : Policy) (h : policy ≠ []) :
    validate_password pwned_db password (some policy)
      = ((run_password_validation_tests pwned_db password policy).find?
          (fun t => t.1)).getD (false, "Password is valid.")
  ∧ List.Sublist (run_password_validation_tests pwned_db password policy)
      ([test_length password ((policy.lookup "min_length").getD (.nat 0)).asNat] ++
      [test_uppercase password ((policy.lookup "min_uppercase").getD (.nat 0)).asNat] ++
      [test_numbers password ((policy.lookup "min_numbers").getD (.nat 0)).asNat] ++
      [test_special_characters password
        ((policy.lookup "min_special").getD (.nat 0)).asNat
        ((policy.lookup "allowed_specials").getD (.str "")).asStr] ++
      [test_pwned pwned_db password] ++
      [test_entropy password ((policy.lookup "min_entropy").getD (.rat 0)).asRat]) := by
  constructor
  · have hne : policy.isEmpty = false := by
      cases policy with
      | nil => exact absurd rfl h
      | cons a l => rfl
    simp [validate_password, hne, first_failure_eq_find]
  · exact run_sublist_rules pwned_db password policy

/-- C8 (witness for the amended theorem): a concrete non-empty policy. -/
theorem claim_C8_amended_witness :
    ([("min_length", PolicyVal.nat 8)] : Policy) ≠ []
  ∧ validate_password (fun _ => some 0) "a" (some [("min_length", PolicyVal.nat 8)])
      = ((run_password_validation_tests (fun _ => some 0) "a"
            [("min_length", PolicyVal.nat 8)]).find? (fun t => t.1)).getD
          (false, "Password is valid.") :=
  ⟨by simp,
   (claim_C8_amended (fun _ => some 0) "a" [("min_length", PolicyVal.nat 8)]
      (by simp)).1⟩

/-- C10: calling the validator with no policy or with an empty policy dict
substitutes the full default policy, which enforces all six default rules
— length 8, 1 uppercase, 1 digit, 1 special from the allowed set, breach
check, entropy 1/2 — rather than enforcing no rules. -/
theorem claim_C10 (pwned_db : String → Option Nat) (password : String) :
    validate_password pwned_db password none
      = validate_password pwned_db password (some DEFAULT_PASSWORD_POLICY)
  ∧ validate_password pwned_db password (some [])
      = validate_password pwned_db password (some DEFAULT_PASSWORD_POLICY)
  ∧ run_password_validation_tests pwned_db password DEFAULT_PASSWORD_POLICY
      = [test_length password 8, test_uppercase password 1, test_numbers password 1,
         test_special_characters password 1 "!@#$%^*-_=+.,",
         test_pwned pwned_db password, test_entropy password (mkRat 1 2)] :=
  ⟨rfl, rfl, rfl⟩

end Deku
